import Mathlib

/-!
Shallow embedding of the Gaussian-process regression engine
(`GaussianProcess.h` / its implementation file, C++ namespace `gpr`).

Modelling conventions:
* the scalar type `TScalarType` (float/double) is embedded as `ℚ`, so that
  kernel arithmetic, the matrix inverse and all comparisons are exact;
* `Eigen` dynamic vectors become `List ℚ` and row-major dynamic matrices
  become `List (List ℚ)` (list of rows);
* `Eigen`'s `.inverse()` (LU inversion) is embedded as the mathematical
  inverse `det⁻¹ • adjugate` of the corresponding `Matrix (Fin n) (Fin n) ℚ`;
* a C++ method that can `throw` returns an `Option String` (the thrown
  message) next to its result; a throw propagates the object in whatever
  state it had reached, so state-mutating methods return the state even in
  the error case;
* the kernel collaborator (`Kernel.h` is not part of the sources under
  review) is modelled from the spec: a kernel has a name (its on-disk type
  tag), an ordered parameter list, value equality on those two components,
  and an evaluation capability. Evaluation is kept abstract: every
  operation that evaluates the kernel takes a `KEval` argument, the
  `evaluate` capability of the collaborator;
* the matrix-file reader/writer collaborator (`MatrixIO.h`, also external)
  is modelled by a file-system record holding matrix values directly, per
  the spec's requirement that matrix files round-trip exactly;
* the single-line parameter file written with `operator<<` and parsed with
  `operator>>` is modelled as a list of typed whitespace-separated tokens;
  `istream` extraction is modelled on those tokens: extraction fails on a
  token of the wrong kind, a failed stream stays failed (sticky failbit),
  and a fresh arithmetic extraction failure stores 0 (C++11 semantics).
-/

namespace gpr

/-- An Eigen dynamic vector `VectorType`. -/
abbrev Vec := List ℚ

/-- An Eigen dynamic row-major matrix `MatrixType`, as its list of rows. -/
abbrev Mat := List (List ℚ)

/-- Entry `(i, j)` of a list matrix (0 outside the stored entries). -/
def matGet (M : Mat) (i j : ℕ) : ℚ := (M.getD i []).getD j 0

/-- The `InversionMethod` enum of `GaussianProcess.h`. -/
inductive InversionMethod where
  | FullPivotLU
  | JacobiSVD
  | BDCSVD
  | SelfAdjointEigenSolver
deriving DecidableEq, Repr

/-- Modelled from the spec: the kernel collaborator (`Kernel.h` is outside
the reviewed sources).  A kernel carries a type-tag name (`ToString`) and an
ordered scalar parameter vector (`GetParameters`); its own equality is value
equality of these components. -/
structure Kernel where
  name : String
  params : List ℚ
deriving DecidableEq, Repr

/-- Modelled from the spec: the kernel collaborator's `evaluate(x, y)`
capability, `(*m_Kernel)(x, y)` in the C++ code. -/
abbrev KEval := Kernel → Vec → Vec → ℚ

/-- The state of a `GaussianProcess<TScalarType>` object: one field per data
member of the C++ class (the advisory `std::mutex` carries no data and is
omitted). -/
structure GP where
  kernel : Kernel
  sigma : ℚ
  sampleVectors : List Vec
  labelVectors : List Vec
  regressionVectors : Mat
  coreMatrix : Mat
  initialized : Bool
  inputDimension : ℕ
  outputDimension : ℕ
  invMethod : InversionMethod
  efficientStorage : Bool
  debug : Bool
deriving DecidableEq, Repr

/-- `GaussianProcess::CheckInputDimension`: throws when `x.size()` differs
from `m_InputDimension`. -/
def CheckInputDimension (g : GP) (x : Vec) (msg : String) : Option String :=
  if x.length ≠ g.inputDimension then
    some (msg ++ "dimension of input vector does not correspond to the input dimension.")
  else none

/-- `GaussianProcess::CheckOutputDimension`: throws when `y.size()` differs
from `m_OutputDimension`. -/
def CheckOutputDimension (g : GP) (y : Vec) (msg : String) : Option String :=
  if y.length ≠ g.outputDimension then
    some (msg ++ "dimension of output vector does not correspond to the output dimension.")
  else none

/-- `GaussianProcess::AddSample`.  The first call (empty stores) locks the
input/output dimensions; then the dimension checks run (throwing leaves the
stores untouched); on success both vectors are appended and the model is
marked dirty. -/
def AddSample (g : GP) (x y : Vec) : Option String × GP :=
  let g1 := if g.sampleVectors.length = 0 then { g with inputDimension := x.length } else g
  let g2 := if g1.labelVectors.length = 0 then { g1 with outputDimension := y.length } else g1
  match CheckInputDimension g2 x "GaussianProcess::AddSample: " with
  | some e => (some e, g2)
  | none =>
    match CheckOutputDimension g2 y "GaussianProcess::AddSample: " with
    | some e => (some e, g2)
    | none =>
      (none, { g2 with
                sampleVectors := g2.sampleVectors ++ [x],
                labelVectors := g2.labelVectors ++ [y],
                initialized := false })

/-- `GaussianProcess::ComputeKernelMatrix`: the n×n matrix over the stored
samples.  The C++ code evaluates the kernel only on the upper triangle
`i ≤ j` and mirrors the value to `(j, i)`, so the entry at `i > j` is the
evaluation with swapped arguments; `gramEntry` is that per-cell value. -/
def gramEntry (kev : KEval) (g : GP) (i j : ℕ) : ℚ :=
  if i ≤ j then kev g.kernel (g.sampleVectors.getD i []) (g.sampleVectors.getD j [])
  else kev g.kernel (g.sampleVectors.getD j []) (g.sampleVectors.getD i [])

/-- `GaussianProcess::ComputeKernelMatrix`: the n×n symmetric-filled Gram
matrix over the stored samples. -/
def ComputeKernelMatrix (kev : KEval) (g : GP) : Mat :=
  (List.range g.sampleVectors.length).map fun i =>
    (List.range g.sampleVectors.length).map fun j => gramEntry kev g i j

/-- The noise loop of `ComputeRegressionVectors`: `K(i,i) += m_Sigma` for
every row index. -/
def addSigmaDiag (K : Mat) (s : ℚ) : Mat :=
  List.zipWith
    (fun i row => List.zipWith (fun j v => if j = i then v + s else v) (List.range row.length) row)
    (List.range K.length) K

/-- The label matrix built by `ComputeLabelMatrix`: n×d (d = size of the
first label), row i = label i (`Y.block(i,0,1,d) = m_LabelVectors[i].adjoint()`). -/
def labelRows (g : GP) : Mat :=
  g.labelVectors.map fun y =>
    (List.range (g.labelVectors.getD 0 []).length).map fun j => y.getD j 0

/-- `GaussianProcess::ComputeLabelMatrix`: throws when there are no labels;
otherwise returns the label matrix. -/
def ComputeLabelMatrix (g : GP) : Option String × Mat :=
  if g.labelVectors.length = 0 then
    (some "GaussianProcess::ComputeRegressionVectors: no ouput labels defined during computation of the regression vectors.", [])
  else
    (none, labelRows g)

/-- View an n×d list matrix as a `Fin`-indexed matrix (0 padding outside). -/
def toRect (n d : ℕ) (M : Mat) : Matrix (Fin n) (Fin d) ℚ :=
  Matrix.of fun i j => matGet M i j

/-- Flatten a `Fin`-indexed matrix back to a list matrix. -/
def matToList (n d : ℕ) (A : Matrix (Fin n) (Fin d) ℚ) : Mat :=
  (List.finRange n).map fun i => (List.finRange d).map fun j => A i j

/-- Eigen's `.inverse()` read mathematically: `det⁻¹ • adjugate` (the zero
matrix when the determinant vanishes, where Eigen's result is undefined). -/
def eigenInv {n : ℕ} (A : Matrix (Fin n) (Fin n) ℚ) : Matrix (Fin n) (Fin n) ℚ :=
  A.det⁻¹ • A.adjugate

/-- `K.inverse() * Y` on list matrices, with `K` read as n×n and `Y` as n×d. -/
def matInvMulList (n d : ℕ) (K Y : Mat) : Mat :=
  matToList n d (eigenInv (toRect n n K) * toRect n d Y)

/-- `GaussianProcess::ComputeRegressionVectors`: build the kernel matrix, add
`m_Sigma` to its diagonal, build the label matrix (which throws when no
labels are stored), and store `K.inverse() * Y` in `m_RegressionVectors`.
The inversion-method selector `m_InvMethod` is not consulted. -/
def ComputeRegressionVectors (kev : KEval) (g : GP) : Option String × GP :=
  let K := addSigmaDiag (ComputeKernelMatrix kev g) g.sigma
  match ComputeLabelMatrix g with
  | (some e, _) => (some e, g)
  | (none, Y) =>
    let n := g.sampleVectors.length
    let d := (g.labelVectors.getD 0 []).length
    (none, { g with regressionVectors := matInvMulList n d K Y })

/-- `GaussianProcess::Initialize`: a no-op when already initialized; throws
on an empty sample or label store; otherwise trains and marks the model
initialized. -/
def Initialize (kev : KEval) (g : GP) : Option String × GP :=
  if g.initialized then (none, g)
  else if g.sampleVectors.length = 0 then
    (some "GaussianProcess::Initialize: no input samples defined during initialization", g)
  else if g.labelVectors.length = 0 then
    (some "GaussianProcess::Initialize: no ouput labels defined during initialization", g)
  else
    match ComputeRegressionVectors kev g with
    | (some e, g') => (some e, g')
    | (none, g') => (none, { g' with initialized := true })

/-- `GaussianProcess::ComputeKernelVector`: throws when not initialized;
otherwise the vector sized by `m_RegressionVectors.rows()` with
`Kx(i) = k(x, m_SampleVectors[i])`. -/
def ComputeKernelVector (kev : KEval) (g : GP) (x : Vec) : Option String × Vec :=
  if g.initialized = false then
    (some "GaussianProcess::ComputeKernelVecotr: gaussian process is not initialized.", [])
  else
    (none, (List.range g.regressionVectors.length).map fun i =>
      kev g.kernel x (g.sampleVectors.getD i []))

/-- `(Kx.adjoint() * m_RegressionVectors).adjoint()`: the d_out-length
posterior mean, entry j = Σ_i Kx(i) · RV(i, j). -/
def predictFormula (Kx : Vec) (RV : Mat) : Vec :=
  (List.range (RV.getD 0 []).length).map fun j =>
    ((List.range RV.length).map fun i => Kx.getD i 0 * matGet RV i j).sum

/-- `GaussianProcess::Predict`: initialize (train if dirty), check the input
dimension, compute the kernel vector and return the posterior mean.  The
middle component is the object state after the call. -/
def Predict (kev : KEval) (g : GP) (x : Vec) : Option String × GP × Vec :=
  match Initialize kev g with
  | (some e, g') => (some e, g', [])
  | (none, g') =>
    match CheckInputDimension g' x "GaussianProcess::Predict: " with
    | some e => (some e, g', [])
    | none =>
      match ComputeKernelVector kev g' x with
      | (some e, _) => (some e, g', [])
      | (none, Kx) => (none, g', predictFormula Kx g'.regressionVectors)

/-- `GaussianProcess::ComputeDifferenceMatrix`: the n×d matrix (d = `x.size()`)
whose row i is `(x - m_SampleVectors[i]).adjoint()`. -/
def ComputeDifferenceMatrix (g : GP) (x : Vec) : Mat :=
  g.sampleVectors.map fun s => (List.range x.length).map fun r => x.getD r 0 - s.getD r 0

/-- `GaussianProcess::PredictDerivative`: same entry steps as `Predict`, then
`D` is resized to d_in×d_out and column c is
`-X.transpose() * Kx.cwiseProduct(m_RegressionVectors.col(c))`; the return
value is the same point prediction as `Predict`.  Result:
(thrown message, state after the call, returned prediction, output matrix D). -/
def PredictDerivative (kev : KEval) (g : GP) (x : Vec) :
    Option String × GP × Vec × Mat :=
  match Initialize kev g with
  | (some e, g') => (some e, g', [], [])
  | (none, g') =>
    match CheckInputDimension g' x "GaussianProcess::PredictDerivative: " with
    | some e => (some e, g', [], [])
    | none =>
      match ComputeKernelVector kev g' x with
      | (some e, _) => (some e, g', [], [])
      | (none, Kx) =>
        let X := ComputeDifferenceMatrix g' x
        let D := (List.range g'.inputDimension).map fun r =>
          (List.range g'.outputDimension).map fun c =>
            -(((List.range X.length).map fun i =>
                matGet X i r * (Kx.getD i 0 * matGet g'.regressionVectors i c)).sum)
        (none, g', predictFormula Kx g'.regressionVectors, D)

/-- `SetKernel`: swap the kernel handle and mark the model dirty. -/
def SetKernel (g : GP) (k : Kernel) : GP :=
  { g with kernel := k, initialized := false }

/-- `SetSigma`: set the noise scalar and mark the model dirty. -/
def SetSigma (g : GP) (s : ℚ) : GP :=
  { g with sigma := s, initialized := false }

/-- `SetEfficientStorage`: sets only `m_EfficientStorage` (the C++ setter
does not touch `m_Initialized`). -/
def SetEfficientStorage (g : GP) (b : Bool) : GP :=
  { g with efficientStorage := b }

/-- `SetInversionMethod`: sets only `m_InvMethod`. -/
def SetInversionMethod (g : GP) (m : InversionMethod) : GP :=
  { g with invMethod := m }

/-- `GaussianProcess::operator==`.  The C++ comparison checks, in order and
short-circuiting: regression vectors (zero-norm difference), sample count
then pairwise sample values, label count then pairwise label values, kernel
equality (delegated to the kernel), sigma, the initialized flag, both
dimensions, and the debug flag.  On exact values a zero-norm difference of
equally sized data is plain equality, and size-plus-pairwise equality of the
stores is list equality.  `m_CoreMatrix`, `m_InvMethod` and
`m_EfficientStorage` are not consulted. -/
def gpEq (a b : GP) : Bool :=
  decide (a.regressionVectors = b.regressionVectors) &&
  decide (a.sampleVectors = b.sampleVectors) &&
  decide (a.labelVectors = b.labelVectors) &&
  decide (a.kernel = b.kernel) &&
  decide (a.sigma = b.sigma) &&
  decide (a.initialized = b.initialized) &&
  decide (a.inputDimension = b.inputDimension) &&
  decide (a.outputDimension = b.outputDimension) &&
  decide (a.debug = b.debug)

/-! ### Persistence

`Save` writes four files under a path prefix and `Load` reads them back.
The matrix reader/writer collaborator (`MatrixIO.h`, external) is modelled
by file-system entries holding the matrix value itself, per the spec's exact
round-trip requirement; the parameter file, written with `operator<<` and
read back with `operator>>`, is modelled as a list of typed tokens. -/

/-- One whitespace-separated token of the parameter file: a word, an
unsigned integer, or a scalar. -/
inductive Tok where
  | str (s : String)
  | nat (n : ℕ)
  | num (q : ℚ)
deriving DecidableEq, Repr

/-- What a path names on disk: nothing, a directory, a matrix file (content
abstracted by the Matrix I/O collaborator), or the one-line parameter file. -/
inductive Entry (α : Type) where
  | absent
  | dir
  | file (content : α)
deriving DecidableEq, Repr

/-- The four files `P-RegressionVectors.txt`, `P-SampleVectors.txt`,
`P-LabelVectors.txt`, `P-ParameterFile.txt` under one prefix `P`. -/
structure FS where
  rv : Entry Mat
  sv : Entry Mat
  lv : Entry Mat
  pf : Entry (List Tok)
deriving DecidableEq, Repr

/-- An input string stream over the parameter line; `failed` is the sticky
failbit. -/
structure IStream where
  toks : List Tok
  failed : Bool
deriving DecidableEq, Repr

/-- `>>` into a `std::string`: succeeds on any remaining token, yielding its
character content. -/
def readStrTok (st : IStream) : Option String × IStream :=
  if st.failed then (none, st)
  else
    match st.toks with
    | [] => (none, { st with failed := true })
    | t :: ts =>
      match t with
      | .str s => (some s, ⟨ts, false⟩)
      | .nat n => (some (toString n), ⟨ts, false⟩)
      | .num q => (some (toString q), ⟨ts, false⟩)

/-- `>>` into an `unsigned`: succeeds on an unsigned-integer token.  On a
fresh extraction failure C++11 stores 0 into the target, so the failing case
reports value 0; when the stream had already failed nothing is stored. -/
def readNatTok (st : IStream) : Bool × ℕ × IStream :=
  if st.failed then (false, 0, st)
  else
    match st.toks with
    | [] => (false, 0, { st with failed := true })
    | .nat n :: ts => (true, n, ⟨ts, false⟩)
    | _ :: _ => (false, 0, { st with failed := true })

/-- `>>` into a scalar (`double` / `TScalarType`): succeeds on any numeric
token; a fresh failure stores 0. -/
def readNumTok (st : IStream) : Bool × ℚ × IStream :=
  if st.failed then (false, 0, st)
  else
    match st.toks with
    | [] => (false, 0, { st with failed := true })
    | .nat n :: ts => (true, (n : ℚ), ⟨ts, false⟩)
    | .num q :: ts => (true, q, ⟨ts, false⟩)
    | .str _ :: _ => (false, 0, { st with failed := true })

/-- `>>` into a `bool` (no `boolalpha`): 0 gives `false`, 1 gives `true`,
anything else is an extraction failure (which stores `true` in C++11). -/
def readBoolTok (st : IStream) : Bool × Bool × IStream :=
  if st.failed then (false, true, st)
  else
    match st.toks with
    | [] => (false, true, { st with failed := true })
    | .nat 0 :: ts => (true, false, ⟨ts, false⟩)
    | .nat 1 :: ts => (true, true, ⟨ts, false⟩)
    | _ :: _ => (false, true, { st with failed := true })

/-- The parameter-reading loop of `Load`: `num` attempted scalar extractions;
a failed extraction clears `load` and appends nothing, and the loop keeps
running on the (now failed) stream. -/
def readParamsLoop : ℕ → IStream → List ℚ → Bool → IStream × List ℚ × Bool
  | 0, st, acc, load => (st, acc, load)
  | n + 1, st, acc, load =>
    match readNumTok st with
    | (false, _, st') => readParamsLoop n st' acc false
    | (true, q, st') => readParamsLoop n st' (acc ++ [q]) load

/-- Build the samples-as-columns matrix written by `Save`:
`X` is `m_SampleVectors[0].size()` × n, with column i = `m_SampleVectors[i]`
(`X` starts zero-filled). -/
def colsMatrix (vs : List Vec) : Mat :=
  (List.range (vs.getD 0 []).length).map fun r => vs.map fun v => v.getD r 0

/-- Column i of a stored matrix, as `Load` extracts it (`X.col(i)`). -/
def matColumn (M : Mat) (i : ℕ) : Vec := M.map fun row => row.getD i 0

/-- The columns of a stored matrix in order: `Load`'s
`for(i < X.cols()) push_back(X.col(i))`. -/
def matColumns (M : Mat) : List Vec :=
  (List.range (M.getD 0 []).length).map fun i => matColumn M i

/-- The single line written to `P-ParameterFile.txt`:
`KernelType #KernelParameters KernelParameters sigma InputDimension
OutputDimension debug`. -/
def paramLine (g : GP) : List Tok :=
  [Tok.str g.kernel.name, Tok.nat g.kernel.params.length] ++
  g.kernel.params.map Tok.num ++
  [Tok.num g.sigma, Tok.nat g.inputDimension, Tok.nat g.outputDimension,
   Tok.nat (if g.debug then 1 else 0)]

/-- `GaussianProcess::Save`: throws when the model is not initialized;
otherwise (over)writes the four files under the prefix. -/
def Save (g : GP) (fs : FS) : Option String × FS :=
  if g.initialized = false then
    (some "GaussianProcess::Save: gaussian process is not initialized.", fs)
  else
    (none,
     { rv := .file g.regressionVectors,
       sv := .file (colsMatrix g.sampleVectors),
       lv := .file (colsMatrix g.labelVectors),
       pf := .file (paramLine g) })

/-- The `if(std::getline(...)) { ... }` block of `Load`, parsing the one
parameter line of `toks` against the model `g` whose scalar members the
extractions mutate in place.  Returns
(no-throw?, model state, `kernel_type`, `kernel_parameters`); a `false`
first component is the `"parameter file is corrupt"` throw.  An empty token
list stands for an empty file, on which `getline` fails and the whole parse
block is skipped with all locals at their initial values. -/
def parseParamLine (g : GP) (toks : List Tok) : Bool × GP × String × List ℚ :=
  if toks.isEmpty then (true, g, "", [])
  else
    let r1 := readStrTok ⟨toks, false⟩
    let kt := r1.1.getD ""
    let r2 := readNatTok r1.2
    let load2 := r1.1.isSome && r2.1
    let r3 := readParamsLoop r2.2.1 r2.2.2 [] load2
    let kps := r3.2.1
    let r4 := readNumTok r3.1
    let g4 := if (r3.1).failed then g else { g with sigma := r4.2.1 }
    if ¬r4.1 then (false, g4, kt, kps)
    else
      let r5 := readNatTok r4.2.2
      let g5 := { g4 with inputDimension := r5.2.1 }
      if ¬r5.1 then (false, g5, kt, kps)
      else
        let r6 := readNatTok r5.2.2
        let g6 := { g5 with outputDimension := r6.2.1 }
        if ¬r6.1 then (false, g6, kt, kps)
        else
          let r7 := readBoolTok r6.2.2
          let g7 := { g6 with debug := r7.2.1 }
          if ¬r7.1 then (false, g7, kt, kps)
          else (r3.2.2, g7, kt, kps)

/-- The kernel-recognition tail of `Load`: rebuild the kernel from its name
and parameters (a recognized name demands an exact parameter count) and
mark the model initialized. -/
def loadKernelStep (g4 : GP) (kt : String) (kps : List ℚ) : Option String × GP :=
  if kt = "GaussianKernel" then
    if kps.length ≠ 2 then
      (some "GaussianProcess::Load: wrong number of kernel parameters.", g4)
    else (none, { g4 with kernel := ⟨"GaussianKernel", kps⟩, initialized := true })
  else if kt = "PeriodicKernel" then
    if kps.length ≠ 3 then
      (some "GaussianProcess::Load: wrong number of kernel parameters.", g4)
    else (none, { g4 with kernel := ⟨"PeriodicKernel", kps⟩, initialized := true })
  else (some "GaussianProcess::Load: kernel not recognized.", g4)

/-- The parameter-file tail of `Load`: parse the one line (mutating the
model's scalar members in place), then recognize the kernel. -/
def loadParams (g3 : GP) (toks : List Tok) : Option String × GP :=
  match parseParamLine g3 toks with
  | (false, g4, _, _) => (some "GaussianProcess::Load: parameter file is corrupt", g4)
  | (true, g4, kt, kps) => loadKernelStep g4 kt kps

/-- `GaussianProcess::Load`: reads the four files in a fixed order, mutating
the live model field by field as each file is parsed, then reconstructs the
kernel from its name and parameter count and finally marks the model
initialized.  Any throw propagates the partially mutated state. -/
def Load (pre : String) (g : GP) (fs : FS) : Option String × GP :=
  match fs.rv with
  | .file rvM =>
    let g1 := { g with regressionVectors := rvM }
    match fs.sv with
    | .file svM =>
      let g2 := { g1 with sampleVectors := matColumns svM }
      match fs.lv with
      | .file lvM =>
        let g3 := { g2 with labelVectors := matColumns lvM }
        match fs.pf with
        | .file toks => loadParams g3 toks
        | _ =>
          (some ("GaussianProcess::Load: " ++ pre ++ "-ParameterFile.txt does not exist or is a directory."), g3)
      | _ =>
        (some ("GaussianProcess::Load: " ++ pre ++ "-LabelVectors.txt does not exist or is a directory."), g2)
    | _ =>
      (some ("GaussianProcess::Load: " ++ pre ++ "-SampleVectors.txt does not exist or is a directory."), g1)
  | _ =>
    (some ("GaussianProcess::Load: " ++ pre ++ "-RegressionVectors.txt does not exist or is a directory."), g)

/-! ### List-matrix toolkit -/

theorem matGet_ofRows (f : ℕ → ℕ → ℚ) (n d i j : ℕ) (hi : i < n) (hj : j < d) :
    matGet ((List.range n).map fun i => (List.range d).map fun j => f i j) i j = f i j := by
  simp [matGet, List.getD_eq_getElem?_getD, List.getElem?_map, List.getElem?_range, hi, hj]

theorem addSigmaDiag_ofRows (f : ℕ → ℕ → ℚ) (n : ℕ) (s : ℚ) :
    addSigmaDiag ((List.range n).map fun i => (List.range d).map fun j => f i j) s
      = (List.range n).map fun i =>
          (List.range d).map fun j => if j = i then f i j + s else f i j := by
  apply List.ext_getElem
  · simp [addSigmaDiag]
  intro i h1 h2
  simp only [addSigmaDiag, List.getElem_zipWith, List.getElem_range, List.getElem_map]
  apply List.ext_getElem
  · simp
  intro j h3 h4
  simp [List.getElem_zipWith, List.getElem_range, List.getElem_map]

theorem eigenInv_eq_inv {n : ℕ} (A : Matrix (Fin n) (Fin n) ℚ) : eigenInv A = A⁻¹ := by
  rw [Matrix.inv_def, Ring.inverse_eq_inv, eigenInv]

theorem matToList_length (n d : ℕ) (A : Matrix (Fin n) (Fin d) ℚ) :
    (matToList n d A).length = n := by simp [matToList]

theorem matToList_rows (n d : ℕ) (A : Matrix (Fin n) (Fin d) ℚ) :
    ∀ row ∈ matToList n d A, row.length = d := by
  intro row hrow
  simp only [matToList, List.mem_map] at hrow
  obtain ⟨i, _, rfl⟩ := hrow
  simp

/-! ### Training helpers -/

/-- Successful training: on a dirty model with samples and labels,
`Initialize` stores `(K + σ·diag).inverse() * Y` and sets the flag. -/
theorem Initialize_trains (kev : KEval) (g : GP)
    (hin : g.initialized = false) (hs : g.sampleVectors.length ≠ 0)
    (hl : g.labelVectors.length ≠ 0) :
    Initialize kev g =
      (none, { g with
        regressionVectors :=
          matInvMulList g.sampleVectors.length (g.labelVectors.getD 0 []).length
            (addSigmaDiag (ComputeKernelMatrix kev g) g.sigma) (labelRows g),
        initialized := true }) := by
  simp [Initialize, ComputeRegressionVectors, ComputeLabelMatrix, hin, hs, hl]

/-- The Gram matrix as the spec defines it: `K[i][j] = Kernel(x_i, x_j)`. -/
def specGram (kev : KEval) (g : GP) (n : ℕ) : Matrix (Fin n) (Fin n) ℚ :=
  Matrix.of fun i j =>
    kev g.kernel (g.sampleVectors.getD (i : ℕ) []) (g.sampleVectors.getD (j : ℕ) [])

/-- The label matrix as the spec defines it: row i is `y_i`. -/
def specLabels (g : GP) (n d : ℕ) : Matrix (Fin n) (Fin d) ℚ :=
  Matrix.of fun i j => (g.labelVectors.getD (i : ℕ) []).getD (j : ℕ) 0

/-- The computed regularized Gram matrix is `K + σ·I` for a symmetric
kernel. -/
theorem toRect_trainGram (kev : KEval) (g : GP)
    (hsym : ∀ x y, kev g.kernel x y = kev g.kernel y x) :
    toRect g.sampleVectors.length g.sampleVectors.length
        (addSigmaDiag (ComputeKernelMatrix kev g) g.sigma)
      = specGram kev g g.sampleVectors.length
        + g.sigma •
          (1 : Matrix (Fin g.sampleVectors.length) (Fin g.sampleVectors.length) ℚ) := by
  ext i j
  have h1 : addSigmaDiag (ComputeKernelMatrix kev g) g.sigma
      = (List.range g.sampleVectors.length).map fun i =>
          (List.range g.sampleVectors.length).map fun j =>
            if j = i then gramEntry kev g i j + g.sigma else gramEntry kev g i j :=
    addSigmaDiag_ofRows (gramEntry kev g) g.sampleVectors.length g.sigma
  have h2 : matGet (addSigmaDiag (ComputeKernelMatrix kev g) g.sigma) (i : ℕ) (j : ℕ)
      = if (j : ℕ) = (i : ℕ) then gramEntry kev g i j + g.sigma
        else gramEntry kev g i j := by
    rw [h1]; exact matGet_ofRows _ _ _ _ _ i.isLt j.isLt
  have hg : gramEntry kev g (i : ℕ) (j : ℕ)
      = kev g.kernel (g.sampleVectors.getD (i : ℕ) []) (g.sampleVectors.getD (j : ℕ) []) := by
    unfold gramEntry
    rcases le_or_lt (i : ℕ) (j : ℕ) with h | h
    · rw [if_pos h]
    · rw [if_neg (by omega), hsym]
  simp only [toRect, Matrix.of_apply, Matrix.add_apply, Matrix.smul_apply, Matrix.one_apply,
    specGram, smul_eq_mul, mul_ite, mul_one, mul_zero, h2, hg]
  by_cases h : i = j
  · subst h; simp
  · rw [if_neg (by simpa [Fin.val_eq_val] using fun hh => h (Eq.symm hh)),
      if_neg h, add_zero]

/-- The computed label matrix is the spec's label matrix. -/
theorem toRect_labelRows (g : GP) (n d : ℕ) (hln : g.labelVectors.length = n)
    (hd : (g.labelVectors.getD 0 []).length = d) :
    toRect n d (labelRows g) = specLabels g n d := by
  ext i j
  have hi : (i : ℕ) < g.labelVectors.length := by omega
  have hj : (j : ℕ) < (g.labelVectors.getD 0 []).length := by omega
  have e1 : (labelRows g).getD (i : ℕ) []
      = (List.range (g.labelVectors.getD 0 []).length).map
          fun k => (g.labelVectors[(i : ℕ)]).getD k 0 := by
    rw [labelRows, List.getD_eq_getElem _ _ (by simpa using hi), List.getElem_map]
  simp only [toRect, Matrix.of_apply, specLabels, matGet, e1]
  rw [List.getD_eq_getElem _ _ (by simpa using hj), List.getElem_map, List.getElem_range,
    List.getD_eq_getElem _ _ hi]

/-- What training stores, written as the spec's formula
`Inverse(K + σI) * Y`. -/
theorem trained_formula (kev : KEval) (g : GP) (n d : ℕ)
    (hsym : ∀ x y, kev g.kernel x y = kev g.kernel y x)
    (hn : g.sampleVectors.length = n) (hln : g.labelVectors.length = n)
    (hd : (g.labelVectors.getD 0 []).length = d) :
    matInvMulList g.sampleVectors.length (g.labelVectors.getD 0 []).length
        (addSigmaDiag (ComputeKernelMatrix kev g) g.sigma) (labelRows g)
      = matToList n d ((specGram kev g n + g.sigma • 1)⁻¹ * specLabels g n d) := by
  subst hn
  subst hd
  rw [matInvMulList, eigenInv_eq_inv, toRect_trainGram kev g hsym,
    toRect_labelRows g _ _ hln rfl]

/-- The constructor `GaussianProcess(KernelTypePointer kernel)`: zero noise,
not initialized, zero dimensions, `FullPivotLU`, efficient storage off,
debug off. -/
def mkGaussianProcess (k : Kernel) : GP :=
  { kernel := k, sigma := 0, sampleVectors := [], labelVectors := [],
    regressionVectors := [], coreMatrix := [], initialized := false,
    inputDimension := 0, outputDimension := 0, invMethod := .FullPivotLU,
    efficientStorage := false, debug := false }

/-! ### C1 -/

/-- C1: for a model with n ≥ 1 stored samples (and its matching label
store), successful training — the dirty-to-ready transition performed by
`Initialize` — computes the regression coefficients as
`Inverse(K + σ·I) * Y` where `K[i][j] = Kernel(x_i, x_j)`, σ is added to
every diagonal entry, and `Y` is the n×d_out label matrix with row i = y_i;
the coefficient matrix has exactly n rows and d_out columns, and the model
is then marked ready. -/
theorem C1_training_formula (kev : KEval) (g : GP) (n d : ℕ)
    (hsym : ∀ x y, kev g.kernel x y = kev g.kernel y x)
    (hin : g.initialized = false)
    (hn : g.sampleVectors.length = n) (hpos : 1 ≤ n)
    (hln : g.labelVectors.length = n)
    (hld : ∀ y ∈ g.labelVectors, y.length = d) :
    ∃ g', Initialize kev g = (none, g') ∧ g'.initialized = true
      ∧ g'.regressionVectors
          = matToList n d ((specGram kev g n + g.sigma • 1)⁻¹ * specLabels g n d)
      ∧ g'.regressionVectors.length = n
      ∧ ∀ row ∈ g'.regressionVectors, row.length = d := by
  have hs : g.sampleVectors.length ≠ 0 := by omega
  have hl : g.labelVectors.length ≠ 0 := by omega
  have hd0 : (g.labelVectors.getD 0 []).length = d := by
    apply hld
    rw [List.getD_eq_getElem _ _ (by omega)]
    exact List.getElem_mem _
  have hf := trained_formula kev g n d hsym hn hln hd0
  refine ⟨_, Initialize_trains kev g hin hs hl, rfl, hf, ?_, ?_⟩
  · rw [show ({ g with
        regressionVectors :=
          matInvMulList g.sampleVectors.length (g.labelVectors.getD 0 []).length
            (addSigmaDiag (ComputeKernelMatrix kev g) g.sigma) (labelRows g),
        initialized := true } : GP).regressionVectors
        = matInvMulList g.sampleVectors.length (g.labelVectors.getD 0 []).length
            (addSigmaDiag (ComputeKernelMatrix kev g) g.sigma) (labelRows g) from rfl,
      hf, matToList_length]
  · rw [show ({ g with
        regressionVectors :=
          matInvMulList g.sampleVectors.length (g.labelVectors.getD 0 []).length
            (addSigmaDiag (ComputeKernelMatrix kev g) g.sigma) (labelRows g),
        initialized := true } : GP).regressionVectors
        = matInvMulList g.sampleVectors.length (g.labelVectors.getD 0 []).length
            (addSigmaDiag (ComputeKernelMatrix kev g) g.sigma) (labelRows g) from rfl,
      hf]
    exact matToList_rows n d _

/-- A constant (hence symmetric) kernel evaluation capability, for witnesses. -/
def kevConst : KEval := fun _ _ _ => 1

/-- A concrete trainable dirty model: one 1-dimensional sample and label. -/
def gOneSample : GP :=
  { mkGaussianProcess ⟨"GaussianKernel", [1, 2]⟩ with
    sampleVectors := [[0]], labelVectors := [[5]],
    inputDimension := 1, outputDimension := 1 }

/-- Witness for C1 at a concrete one-sample model. -/
theorem C1_training_formula_witness :
    ∃ g', Initialize kevConst gOneSample = (none, g') ∧ g'.initialized = true
      ∧ g'.regressionVectors
          = matToList 1 1
              ((specGram kevConst gOneSample 1 + gOneSample.sigma • 1)⁻¹
                * specLabels gOneSample 1 1)
      ∧ g'.regressionVectors.length = 1
      ∧ ∀ row ∈ g'.regressionVectors, row.length = 1 :=
  C1_training_formula kevConst gOneSample 1 1 (fun _ _ => rfl) (by decide)
    (by decide) (by decide) (by decide) (by decide)

/-! ### C10 -/

/-- C10: `operator==` looks only at the nine compared fields; two models
agreeing on them compare equal whatever their inversion-method selector,
efficient-storage flag and cached core matrix hold. -/
theorem C10_eq_ignores_cache (a b : GP)
    (h1 : a.regressionVectors = b.regressionVectors)
    (h2 : a.sampleVectors = b.sampleVectors)
    (h3 : a.labelVectors = b.labelVectors)
    (h4 : a.kernel = b.kernel)
    (h5 : a.sigma = b.sigma)
    (h6 : a.initialized = b.initialized)
    (h7 : a.inputDimension = b.inputDimension)
    (h8 : a.outputDimension = b.outputDimension)
    (h9 : a.debug = b.debug) :
    gpEq a b = true := by
  simp [gpEq, h1, h2, h3, h4, h5, h6, h7, h8, h9]

/-- `gOneSample` with a different inversion method, efficient-storage flag
and cached core matrix. -/
def gOneSampleCached : GP :=
  { gOneSample with
      invMethod := .JacobiSVD
      efficientStorage := true
      coreMatrix := [[7]] }

/-- Witness for C10: equality holds across different inversion methods,
efficient-storage flags and core matrices. -/
theorem C10_eq_ignores_cache_witness :
    gpEq gOneSample gOneSampleCached = true :=
  C10_eq_ignores_cache _ _ rfl rfl rfl rfl rfl rfl rfl rfl rfl

/-! ### C7 -/

theorem ComputeRegressionVectors_initialized (kev : KEval) (g : GP) :
    ((ComputeRegressionVectors kev g).2).initialized = g.initialized := by
  unfold ComputeRegressionVectors
  split <;> rfl

theorem parseParamLine_initialized (g : GP) (ts : List Tok) :
    ((parseParamLine g ts).2.1).initialized = g.initialized := by
  simp only [parseParamLine]
  split_ifs <;> rfl

theorem loadParams_flag (g3 : GP) (ts : List Tok) :
    ((loadParams g3 ts).2).initialized
      = (if (loadParams g3 ts).1 = none then true else g3.initialized) := by
  have hf := parseParamLine_initialized g3 ts
  rcases hp : parseParamLine g3 ts with ⟨ok, g4, kt, kps⟩
  rw [hp] at hf
  simp only at hf
  simp only [loadParams, hp]
  cases ok
  · simpa using hf
  · show ((loadKernelStep g4 kt kps).2).initialized
      = (if (loadKernelStep g4 kt kps).1 = none then true else g3.initialized)
    unfold loadKernelStep
    split_ifs <;> simp_all

/-- C7, amended: `AddSample` (on success), `SetKernel` and `SetSigma` mark
the model dirty; `SetEfficientStorage` leaves the ready flag unchanged; the
flag becomes true only through successful training (`Initialize`) or a
successful `Load`. -/
theorem C7_dirty_marking (g : GP) (x y : Vec) (k : Kernel) (s : ℚ) (b : Bool)
    (kev : KEval) (pre : String) (fs : FS) :
    ((AddSample g x y).2).initialized
        = (if (AddSample g x y).1 = none then false else g.initialized)
    ∧ (SetKernel g k).initialized = false
    ∧ (SetSigma g s).initialized = false
    ∧ (SetEfficientStorage g b).initialized = g.initialized
    ∧ ((Initialize kev g).2).initialized
        = (if (Initialize kev g).1 = none then true else g.initialized)
    ∧ ((Load pre g fs).2).initialized
        = (if (Load pre g fs).1 = none then true else g.initialized) := by
  refine ⟨?_, rfl, rfl, rfl, ?_, ?_⟩
  · simp only [AddSample, CheckInputDimension, CheckOutputDimension]
    split_ifs <;> simp_all
  · have hf := ComputeRegressionVectors_initialized kev g
    rcases hc : ComputeRegressionVectors kev g with ⟨e, g'⟩
    rw [hc] at hf
    simp only at hf
    unfold Initialize
    by_cases h1 : g.initialized = true
    · simp [h1]
    · by_cases h2 : g.sampleVectors.length = 0
      · simp [h1, h2]
      · by_cases h3 : g.labelVectors.length = 0
        · simp [h1, h2, h3]
        · simp only [h1, h2, h3, hc, if_neg, if_false, Bool.false_eq_true]
          cases e <;> simp_all
  · obtain ⟨rv, sv, lv, pf⟩ := fs
    cases rv with
    | absent => simp [Load]
    | dir => simp [Load]
    | file rvM =>
      cases sv with
      | absent => simp [Load]
      | dir => simp [Load]
      | file svM =>
        cases lv with
        | absent => simp [Load]
        | dir => simp [Load]
        | file lvM =>
          cases pf with
          | absent => simp [Load]
          | dir => simp [Load]
          | file toks =>
            show ((loadParams _ toks).2).initialized = _
            exact loadParams_flag _ toks

/-- Counterexample to C7 as stated: `SetEfficientStorage` does not mark a
ready model dirty, and a successful `Load` makes a model ready without any
training. -/
theorem C7_counterexample :
    (SetEfficientStorage { gOneSample with initialized := true } true).initialized = true
    ∧ (Load "gp" (mkGaussianProcess ⟨"GaussianKernel", [1, 2]⟩)
        { rv := .file [[5]], sv := .file [[0]], lv := .file [[5]],
          pf := .file [.str "GaussianKernel", .nat 2, .num 1, .num 2,
                       .num 0, .nat 1, .nat 1, .nat 0] }).1 = none
    ∧ ((Load "gp" (mkGaussianProcess ⟨"GaussianKernel", [1, 2]⟩)
        { rv := .file [[5]], sv := .file [[0]], lv := .file [[5]],
          pf := .file [.str "GaussianKernel", .nat 2, .num 1, .num 2,
                       .num 0, .nat 1, .nat 1, .nat 0] }).2).initialized = true := by
  refine ⟨rfl, by decide, by decide⟩

/-! ### C4 -/

/-- C4: the first `AddSample` locks d_in = |x| and d_out = |y| and appends;
a later call with a mismatched input or output size throws and leaves the
model (in particular both stores) unchanged; a later matching call appends
both vectors and marks the model dirty. -/
theorem C4_add_sample (g : GP) (x y : Vec) :
    (g.sampleVectors = [] → g.labelVectors = [] →
      AddSample g x y = (none, { g with
        inputDimension := x.length, outputDimension := y.length,
        sampleVectors := [x], labelVectors := [y], initialized := false }))
    ∧ (g.sampleVectors ≠ [] → g.labelVectors ≠ [] →
        (x.length ≠ g.inputDimension ∨ y.length ≠ g.outputDimension) →
        ∃ e, AddSample g x y = (some e, g))
    ∧ (g.sampleVectors ≠ [] → g.labelVectors ≠ [] →
        x.length = g.inputDimension → y.length = g.outputDimension →
        AddSample g x y = (none, { g with
          sampleVectors := g.sampleVectors ++ [x],
          labelVectors := g.labelVectors ++ [y], initialized := false })) := by
  refine ⟨?_, ?_, ?_⟩
  · intro hs hl
    simp [AddSample, CheckInputDimension, CheckOutputDimension, hs, hl]
  · intro hs hl hmis
    have hs0 : ¬ g.sampleVectors.length = 0 := by simpa using hs
    have hl0 : ¬ g.labelVectors.length = 0 := by simpa using hl
    by_cases hx : x.length = g.inputDimension
    · rcases hmis with h | h
      · exact absurd hx h
      · exact ⟨"GaussianProcess::AddSample: dimension of output vector does not correspond to the output dimension.",
          by simp [AddSample, CheckInputDimension, CheckOutputDimension, hs0, hl0, hx, h]⟩
    · exact ⟨"GaussianProcess::AddSample: dimension of input vector does not correspond to the input dimension.",
        by simp [AddSample, CheckInputDimension, CheckOutputDimension, hs0, hl0, hx]⟩
  · intro hs hl hx hy
    have hs0 : ¬ g.sampleVectors.length = 0 := by simpa using hs
    have hl0 : ¬ g.labelVectors.length = 0 := by simpa using hl
    simp [AddSample, CheckInputDimension, CheckOutputDimension, hs0, hl0, hx, hy]

/-- Witness for C4: a locking first call on a fresh model, a rejected
mismatched second call, and an accepted matching second call. -/
theorem C4_add_sample_witness :
    (AddSample (mkGaussianProcess ⟨"GaussianKernel", [1, 2]⟩) [0] [5]
      = (none, { mkGaussianProcess ⟨"GaussianKernel", [1, 2]⟩ with
          inputDimension := 1, outputDimension := 1,
          sampleVectors := [[0]], labelVectors := [[5]], initialized := false }))
    ∧ (∃ e, AddSample gOneSample [1, 2] [3] = (some e, gOneSample))
    ∧ AddSample gOneSample [1] [2]
      = (none, { gOneSample with
          sampleVectors := [[0], [1]], labelVectors := [[5], [2]],
          initialized := false }) :=
  ⟨(C4_add_sample (mkGaussianProcess ⟨"GaussianKernel", [1, 2]⟩) [0] [5]).1 rfl rfl,
   (C4_add_sample gOneSample [1, 2] [3]).2.1 (by decide) (by decide) (Or.inl (by decide)),
   (C4_add_sample gOneSample [1] [2]).2.2 (by decide) (by decide) rfl rfl⟩

/-! ### C8 -/

/-- C8, amended: on a model with no stored samples that has not been marked
ready (every fresh or mutated zero-sample model; only a crafted `Load` can
mark a zero-sample model ready), `Predict` and `Save` both throw, and
`Initialize` throws before ever invoking the regression solver — its state
is returned untouched, so `ComputeRegressionVectors` is never reached with
a non-positive sample count. -/
theorem C8_zero_samples (kev : KEval) (g : GP) (x : Vec) (fs : FS)
    (hs : g.sampleVectors = []) (hin : g.initialized = false) :
    Predict kev g x
      = (some "GaussianProcess::Initialize: no input samples defined during initialization", g, [])
    ∧ Save g fs = (some "GaussianProcess::Save: gaussian process is not initialized.", fs)
    ∧ Initialize kev g
      = (some "GaussianProcess::Initialize: no input samples defined during initialization", g) := by
  have hi : Initialize kev g
      = (some "GaussianProcess::Initialize: no input samples defined during initialization", g) := by
    simp [Initialize, hin, hs]
  refine ⟨?_, ?_, hi⟩
  · simp [Predict, hi]
  · simp [Save, hin]

/-- Counterexample to C8 as stated: loading a file set with empty sample,
label and regression stores marks the model ready with zero stored samples,
and `Predict` on it then completes without any failure (the C++ code builds
an empty kernel vector and returns an empty prediction). -/
theorem C8_counterexample :
    (Load "gp" (mkGaussianProcess ⟨"GaussianKernel", [1, 2]⟩)
        { rv := .file [], sv := .file [], lv := .file [],
          pf := .file [.str "GaussianKernel", .nat 2, .num 1, .num 2,
                       .num 0, .nat 1, .nat 1, .nat 0] }).1 = none
    ∧ ((Load "gp" (mkGaussianProcess ⟨"GaussianKernel", [1, 2]⟩)
        { rv := .file [], sv := .file [], lv := .file [],
          pf := .file [.str "GaussianKernel", .nat 2, .num 1, .num 2,
                       .num 0, .nat 1, .nat 1, .nat 0] }).2).sampleVectors.length = 0
    ∧ (Predict kevConst
        ((Load "gp" (mkGaussianProcess ⟨"GaussianKernel", [1, 2]⟩)
          { rv := .file [], sv := .file [], lv := .file [],
            pf := .file [.str "GaussianKernel", .nat 2, .num 1, .num 2,
                         .num 0, .nat 1, .nat 1, .nat 0] }).2) [0]).1 = none :=
  ⟨by decide, by decide, by decide⟩

/-- Witness for the amended C8 on a freshly constructed model. -/
theorem C8_zero_samples_witness :
    Predict kevConst (mkGaussianProcess ⟨"GaussianKernel", [1, 2]⟩) [0]
      = (some "GaussianProcess::Initialize: no input samples defined during initialization",
         mkGaussianProcess ⟨"GaussianKernel", [1, 2]⟩, [])
    ∧ Save (mkGaussianProcess ⟨"GaussianKernel", [1, 2]⟩) ⟨.absent, .absent, .absent, .absent⟩
      = (some "GaussianProcess::Save: gaussian process is not initialized.",
         ⟨.absent, .absent, .absent, .absent⟩)
    ∧ Initialize kevConst (mkGaussianProcess ⟨"GaussianKernel", [1, 2]⟩)
      = (some "GaussianProcess::Initialize: no input samples defined during initialization",
         mkGaussianProcess ⟨"GaussianKernel", [1, 2]⟩) :=
  C8_zero_samples kevConst (mkGaussianProcess ⟨"GaussianKernel", [1, 2]⟩) [0]
    ⟨.absent, .absent, .absent, .absent⟩ rfl rfl

/-! ### C6 -/

/-- C6, amended: `Predict` and `PredictDerivative` invoked on a dirty model
with at least one stored sample (and label) first force training and then
complete normally; `Save`, however, does not force training — on a dirty
model it throws its not-initialized error and leaves the files untouched. -/
theorem C6_force_training (kev : KEval) (g : GP) (x : Vec) (fs : FS)
    (hin : g.initialized = false)
    (hs : g.sampleVectors.length ≠ 0) (hl : g.labelVectors.length ≠ 0)
    (hx : x.length = g.inputDimension) :
    ((Predict kev g x).1 = none ∧ ((Predict kev g x).2.1).initialized = true)
    ∧ ((PredictDerivative kev g x).1 = none
        ∧ ((PredictDerivative kev g x).2.1).initialized = true)
    ∧ Save g fs = (some "GaussianProcess::Save: gaussian process is not initialized.", fs) := by
  have hi := Initialize_trains kev g hin hs hl
  refine ⟨⟨?_, ?_⟩, ⟨?_, ?_⟩, ?_⟩
  · simp [Predict, hi, CheckInputDimension, hx, ComputeKernelVector]
  · simp [Predict, hi, CheckInputDimension, hx, ComputeKernelVector]
  · simp [PredictDerivative, hi, CheckInputDimension, hx, ComputeKernelVector]
  · simp [PredictDerivative, hi, CheckInputDimension, hx, ComputeKernelVector]
  · simp [Save, hin]

/-- Witness for the amended C6. -/
theorem C6_force_training_witness :
    ((Predict kevConst gOneSample [0]).1 = none
      ∧ ((Predict kevConst gOneSample [0]).2.1).initialized = true)
    ∧ ((PredictDerivative kevConst gOneSample [0]).1 = none
        ∧ ((PredictDerivative kevConst gOneSample [0]).2.1).initialized = true)
    ∧ Save gOneSample ⟨.absent, .absent, .absent, .absent⟩
      = (some "GaussianProcess::Save: gaussian process is not initialized.",
         ⟨.absent, .absent, .absent, .absent⟩) :=
  C6_force_training kevConst gOneSample [0] ⟨.absent, .absent, .absent, .absent⟩
    rfl (by decide) (by decide) rfl

/-- Counterexample to C6 as stated: on a dirty model with one stored sample,
`Save` throws instead of forcing training. -/
theorem C6_counterexample :
    gOneSample.initialized = false
    ∧ gOneSample.sampleVectors.length = 1
    ∧ (Save gOneSample ⟨.absent, .absent, .absent, .absent⟩).1
        = some "GaussianProcess::Save: gaussian process is not initialized." :=
  ⟨rfl, rfl, rfl⟩

/-! ### C3 -/

/-- C3: `ComputeRegressionVectors` never consults `m_InvMethod`, so for any
two selected inversion methods training returns the same outcome and the
same regression coefficients, and in exact arithmetic those coefficients
are the mathematically defined `Inverse(K + σI) * Y` whatever the selector
holds. -/
theorem C3_inversion_method_irrelevant (kev : KEval) (g : GP)
    (m m' : InversionMethod) (n d : ℕ)
    (hsym : ∀ x y, kev g.kernel x y = kev g.kernel y x)
    (hin : g.initialized = false)
    (hn : g.sampleVectors.length = n) (hpos : 1 ≤ n)
    (hln : g.labelVectors.length = n)
    (hld : ∀ y ∈ g.labelVectors, y.length = d) :
    (Initialize kev (SetInversionMethod g m)).1
        = (Initialize kev (SetInversionMethod g m')).1
    ∧ ((Initialize kev (SetInversionMethod g m)).2).regressionVectors
        = ((Initialize kev (SetInversionMethod g m')).2).regressionVectors
    ∧ ((Initialize kev (SetInversionMethod g m)).2).regressionVectors
        = matToList n d ((specGram kev g n + g.sigma • 1)⁻¹ * specLabels g n d) := by
  have hs : (SetInversionMethod g m).sampleVectors.length ≠ 0 := by
    show g.sampleVectors.length ≠ 0; omega
  have hl : (SetInversionMethod g m).labelVectors.length ≠ 0 := by
    show g.labelVectors.length ≠ 0; omega
  have hd0 : (g.labelVectors.getD 0 []).length = d := by
    apply hld
    rw [List.getD_eq_getElem _ _ (by omega)]
    exact List.getElem_mem _
  have him := Initialize_trains kev (SetInversionMethod g m) hin hs hl
  have him' := Initialize_trains kev (SetInversionMethod g m') hin hs hl
  rw [him, him']
  exact ⟨rfl, rfl, trained_formula kev (SetInversionMethod g m) n d hsym hn hln hd0⟩

/-- Witness for C3 at a concrete model and two different methods. -/
theorem C3_inversion_method_irrelevant_witness :
    (Initialize kevConst (SetInversionMethod gOneSample .FullPivotLU)).1
        = (Initialize kevConst (SetInversionMethod gOneSample .JacobiSVD)).1
    ∧ ((Initialize kevConst (SetInversionMethod gOneSample .FullPivotLU)).2).regressionVectors
        = ((Initialize kevConst (SetInversionMethod gOneSample .JacobiSVD)).2).regressionVectors
    ∧ ((Initialize kevConst (SetInversionMethod gOneSample .FullPivotLU)).2).regressionVectors
        = matToList 1 1
            ((specGram kevConst gOneSample 1 + gOneSample.sigma • 1)⁻¹
              * specLabels gOneSample 1 1) :=
  C3_inversion_method_irrelevant kevConst gOneSample .FullPivotLU .JacobiSVD 1 1
    (fun _ _ => rfl) rfl (by decide) (by decide) (by decide) (by decide)

/-! ### C9 -/

theorem getD_range_map (f : ℕ → ℚ) (n i : ℕ) (hi : i < n) :
    (((List.range n).map f).getD i 0) = f i := by
  rw [List.getD_eq_getElem _ _ (by simpa using hi), List.getElem_map, List.getElem_range]

theorem matInvMulList_length (n d : ℕ) (K Y : Mat) :
    (matInvMulList n d K Y).length = n := by
  simp [matInvMulList, matToList]

theorem ComputeDifferenceMatrix_length (g : GP) (x : Vec) :
    (ComputeDifferenceMatrix g x).length = g.sampleVectors.length := by
  simp [ComputeDifferenceMatrix]

theorem matGet_diff (g : GP) (x : Vec) (i r : ℕ)
    (hi : i < g.sampleVectors.length) (hr : r < x.length) :
    matGet (ComputeDifferenceMatrix g x) i r
      = x.getD r 0 - (g.sampleVectors.getD i []).getD r 0 := by
  simp [ComputeDifferenceMatrix, matGet, List.getD_eq_getElem?_getD, List.getElem?_map,
    List.getElem?_eq_getElem hi, List.getElem?_range hr]

/-- C9: on a dirty model with at least one sample, `PredictDerivative(x)`
returns the same state and the same point prediction as `Predict(x)`, fills
`D` with exactly d_in rows and d_out columns, and column c of `D` is
`-Xᵀ (Kx ∘ Coefficients[:,c])`: entry (r, c) is
`-Σ_i (x - x_i)[r] · (Kernel(x, x_i) · Coefficients[i][c])`. -/
theorem C9_predict_derivative (kev : KEval) (g : GP) (x : Vec)
    (hin : g.initialized = false)
    (hs : g.sampleVectors.length ≠ 0) (hl : g.labelVectors.length ≠ 0)
    (hx : x.length = g.inputDimension) :
    (PredictDerivative kev g x).1 = none
    ∧ (PredictDerivative kev g x).2.1 = (Predict kev g x).2.1
    ∧ (PredictDerivative kev g x).2.2.1 = (Predict kev g x).2.2
    ∧ ((PredictDerivative kev g x).2.2.2).length = g.inputDimension
    ∧ (∀ row ∈ (PredictDerivative kev g x).2.2.2, row.length = g.outputDimension)
    ∧ ∀ r, r < g.inputDimension → ∀ c, c < g.outputDimension →
        matGet ((PredictDerivative kev g x).2.2.2) r c
          = -(((List.range g.sampleVectors.length).map fun i =>
                (x.getD r 0 - (g.sampleVectors.getD i []).getD r 0)
                * (kev g.kernel x (g.sampleVectors.getD i [])
                    * matGet (((PredictDerivative kev g x).2.1).regressionVectors) i c)).sum) := by
  have hi := Initialize_trains kev g hin hs hl
  refine ⟨?_, ?_, ?_, ?_, ?_, ?_⟩
  · simp [PredictDerivative, hi, CheckInputDimension, hx, ComputeKernelVector]
  · simp [PredictDerivative, Predict, hi, CheckInputDimension, hx, ComputeKernelVector]
  · simp [PredictDerivative, Predict, hi, CheckInputDimension, hx, ComputeKernelVector]
  · simp [PredictDerivative, hi, CheckInputDimension, hx, ComputeKernelVector]
  · intro row hrow
    simp only [PredictDerivative, hi, CheckInputDimension, hx, ComputeKernelVector] at hrow
    simp at hrow
    obtain ⟨i, hi2, rfl⟩ := hrow
    simp
  · intro r hr c hc
    have hr' : r < x.length := by omega
    simp [PredictDerivative, hi, CheckInputDimension, hx, ComputeKernelVector,
      ComputeDifferenceMatrix]
    rw [matGet_ofRows _ _ _ _ _ hr hc]
    congr 1
    congr 1
    apply List.map_congr_left
    intro i hi0
    rw [List.mem_range] at hi0
    simp [matGet, List.getD_eq_getElem?_getD, List.getElem?_map,
      List.getElem?_eq_getElem hi0, List.getElem?_range hr', matInvMulList_length,
      List.getElem?_range hi0, List.getElem?_range hr]

/-- Witness for C9 at a concrete one-sample model. -/
theorem C9_predict_derivative_witness :
    (PredictDerivative kevConst gOneSample [0]).1 = none
    ∧ (PredictDerivative kevConst gOneSample [0]).2.1 = (Predict kevConst gOneSample [0]).2.1
    ∧ (PredictDerivative kevConst gOneSample [0]).2.2.1 = (Predict kevConst gOneSample [0]).2.2
    ∧ ((PredictDerivative kevConst gOneSample [0]).2.2.2).length = gOneSample.inputDimension
    ∧ (∀ row ∈ (PredictDerivative kevConst gOneSample [0]).2.2.2,
        row.length = gOneSample.outputDimension)
    ∧ ∀ r, r < gOneSample.inputDimension → ∀ c, c < gOneSample.outputDimension →
        matGet ((PredictDerivative kevConst gOneSample [0]).2.2.2) r c
          = -(((List.range gOneSample.sampleVectors.length).map fun i =>
                (([0] : Vec).getD r 0 - (gOneSample.sampleVectors.getD i []).getD r 0)
                * (kevConst gOneSample.kernel [0] (gOneSample.sampleVectors.getD i [])
                    * matGet (((PredictDerivative kevConst gOneSample [0]).2.1).regressionVectors)
                        i c)).sum) :=
  C9_predict_derivative kevConst gOneSample [0] rfl (by decide) (by decide) rfl

/-! ### C5 -/

/-- C5: the claimed all-or-nothing behaviour fails on the code.  `Load`
assigns `m_RegressionVectors` from the first file before checking that the
sample-vector file exists, so a missing second file aborts the load with the
typed failure but leaves the target model partially mutated: its regression
vectors already hold the loaded matrix. -/
theorem C5_partial_mutation :
    (Load "gp" gOneSample
        { rv := .file [[9]], sv := .absent, lv := .absent, pf := .absent }).1
      = some "GaussianProcess::Load: gp-SampleVectors.txt does not exist or is a directory."
    ∧ ((Load "gp" gOneSample
        { rv := .file [[9]], sv := .absent, lv := .absent, pf := .absent }).2).regressionVectors
      = [[9]]
    ∧ gOneSample.regressionVectors = [] :=
  ⟨by decide, rfl, rfl⟩

/-! ### C2 -/

theorem range_map_getD_self (v : Vec) :
    (List.range v.length).map (fun r => v.getD r 0) = v := by
  apply List.ext_getElem
  · simp
  intro n h1 h2
  rw [List.getElem_map, List.getElem_range, List.getD_eq_getElem _ _ h2]

/-- Saving the stores as columns and re-reading the columns is the
identity, for non-empty stores of non-trivial uniform dimension. -/
theorem matColumns_colsMatrix (vs : List Vec) (dd : ℕ) (hd : 1 ≤ dd)
    (hvs : ∀ v ∈ vs, v.length = dd) (hn : 1 ≤ vs.length) :
    matColumns (colsMatrix vs) = vs := by
  have h0 : (vs.getD 0 []).length = dd := by
    rw [List.getD_eq_getElem _ _ (by omega)]
    exact hvs _ (List.getElem_mem _)
  have hc : (colsMatrix vs).getD 0 [] = vs.map (fun v => v.getD 0 0) := by
    unfold colsMatrix
    rw [List.getD_eq_getElem _ _
        (by rw [List.length_map, List.length_range, h0]; exact hd),
      List.getElem_map, List.getElem_range]
  unfold matColumns
  rw [hc, List.length_map]
  apply List.ext_getElem
  · simp
  intro n h1 h2
  simp only [List.getElem_map, List.getElem_range, List.length_map, List.length_range] at h1 ⊢
  unfold matColumn colsMatrix
  rw [List.map_map]
  have hstep : ∀ r : ℕ,
      ((fun row => row.getD n 0) ∘ fun r => vs.map fun v => v.getD r 0) r
        = (vs[n]).getD r 0 := by
    intro r
    simp only [Function.comp]
    rw [List.getD_eq_getElem _ _ (by simpa using h2), List.getElem_map]
  rw [List.map_congr_left fun r _ => hstep r]
  have hlen : (vs[n]).length = dd := hvs _ (List.getElem_mem _)
  rw [h0, ← hlen, range_map_getD_self]

theorem readParamsLoop_spec (ps : List ℚ) (rest : List Tok) (acc : List ℚ) (load : Bool) :
    readParamsLoop ps.length ⟨ps.map Tok.num ++ rest, false⟩ acc load
      = (⟨rest, false⟩, acc ++ ps, load) := by
  induction ps generalizing acc with
  | nil => simp [readParamsLoop]
  | cons p ps ih =>
    simp only [List.map_cons, List.cons_append, List.length_cons, readParamsLoop,
      readNumTok, Bool.false_eq_true, if_false]
    rw [ih]
    simp

/-- Parsing back the parameter line written by `Save`: always succeeds,
restores σ, the dimensions and the debug flag, and yields the saved kernel
name and parameters. -/
theorem parseParamLine_paramLine (gsrc gdst : GP) :
    parseParamLine gdst (paramLine gsrc)
      = (true, { gdst with
                  sigma := gsrc.sigma, inputDimension := gsrc.inputDimension,
                  outputDimension := gsrc.outputDimension, debug := gsrc.debug },
         gsrc.kernel.name, gsrc.kernel.params) := by
  cases hd : gsrc.debug <;>
    simp [parseParamLine, paramLine, readStrTok, readNatTok, readNumTok, readBoolTok,
      readParamsLoop_spec, hd]

/-- C2: for a trained (initialized) model whose kernel is a recognized type
(`GaussianKernel` with 2 parameters or `PeriodicKernel` with 3), saving
under a prefix and loading that prefix into any other model yields a model
that `operator==` deems equal to the original.  The stores must be
non-empty with uniform non-zero dimensions, as holds for any model built by
`AddSample` (an Eigen `d×n` column matrix with `d = 0` cannot round-trip
its column count through a list-of-rows file, and the C++ `Save` indexes
`m_SampleVectors[0]`). -/
theorem C2_save_load_round_trip (g g2 : GP) (fs : FS) (pre : String) (din dout : ℕ)
    (hin : g.initialized = true)
    (hns : 1 ≤ g.sampleVectors.length)
    (hds : ∀ v ∈ g.sampleVectors, v.length = din) (hdin : 1 ≤ din)
    (hnl : 1 ≤ g.labelVectors.length)
    (hdl : ∀ v ∈ g.labelVectors, v.length = dout) (hdout : 1 ≤ dout)
    (hk : (g.kernel.name = "GaussianKernel" ∧ g.kernel.params.length = 2)
        ∨ (g.kernel.name = "PeriodicKernel" ∧ g.kernel.params.length = 3)) :
    ∃ fs', Save g fs = (none, fs')
      ∧ ∃ g', Load pre g2 fs' = (none, g') ∧ gpEq g g' = true := by
  have hsamp := matColumns_colsMatrix g.sampleVectors din hdin hds hns
  have hlab := matColumns_colsMatrix g.labelVectors dout hdout hdl hnl
  refine ⟨⟨.file g.regressionVectors, .file (colsMatrix g.sampleVectors),
           .file (colsMatrix g.labelVectors), .file (paramLine g)⟩, ?_, ?_⟩
  · simp [Save, hin]
  · have hload1 : Load pre g2
        ⟨.file g.regressionVectors, .file (colsMatrix g.sampleVectors),
         .file (colsMatrix g.labelVectors), .file (paramLine g)⟩
        = loadParams
            { g2 with
                regressionVectors := g.regressionVectors,
                sampleVectors := matColumns (colsMatrix g.sampleVectors),
                labelVectors := matColumns (colsMatrix g.labelVectors) }
            (paramLine g) := rfl
    rw [hload1, hsamp, hlab]
    unfold loadParams
    rw [parseParamLine_paramLine]
    dsimp only
    rcases hk with ⟨hn1, hl1⟩ | ⟨hn1, hl1⟩
    · have hker : (⟨"GaussianKernel", g.kernel.params⟩ : Kernel) = g.kernel := by
        rw [← hn1]
      refine ⟨{ kernel := ⟨"GaussianKernel", g.kernel.params⟩, sigma := g.sigma,
                sampleVectors := g.sampleVectors, labelVectors := g.labelVectors,
                regressionVectors := g.regressionVectors, coreMatrix := g2.coreMatrix,
                initialized := true, inputDimension := g.inputDimension,
                outputDimension := g.outputDimension, invMethod := g2.invMethod,
                efficientStorage := g2.efficientStorage, debug := g.debug }, ?_, ?_⟩
      · simp [loadKernelStep, hn1, hl1]
      · simp [gpEq, hin, hker]
    · have hker : (⟨"PeriodicKernel", g.kernel.params⟩ : Kernel) = g.kernel := by
        rw [← hn1]
      refine ⟨{ kernel := ⟨"PeriodicKernel", g.kernel.params⟩, sigma := g.sigma,
                sampleVectors := g.sampleVectors, labelVectors := g.labelVectors,
                regressionVectors := g.regressionVectors, coreMatrix := g2.coreMatrix,
                initialized := true, inputDimension := g.inputDimension,
                outputDimension := g.outputDimension, invMethod := g2.invMethod,
                efficientStorage := g2.efficientStorage, debug := g.debug }, ?_, ?_⟩
      · simp [loadKernelStep, hn1, hl1]
      · simp [gpEq, hin, hker]

/-- A concrete trained model for the C2 witness. -/
def gTrained : GP := { gOneSample with initialized := true, regressionVectors := [[5]] }

/-- Witness for C2: round trip of a trained one-sample Gaussian-kernel model
loaded into a freshly constructed model with a different kernel. -/
theorem C2_save_load_round_trip_witness :
    ∃ fs', Save gTrained ⟨.absent, .absent, .absent, .absent⟩ = (none, fs')
      ∧ ∃ g', Load "gp" (mkGaussianProcess ⟨"PeriodicKernel", [1, 2, 3]⟩) fs' = (none, g')
          ∧ gpEq gTrained g' = true :=
  C2_save_load_round_trip gTrained (mkGaussianProcess ⟨"PeriodicKernel", [1, 2, 3]⟩)
    ⟨.absent, .absent, .absent, .absent⟩ "gp" 1 1 rfl (by decide) (by decide) (by decide)
    (by decide) (by decide) (by decide) (Or.inl ⟨rfl, rfl⟩)

end gpr
